import Mathlib

/-!
Shallow embedding of the gdax-client library (rust sources: src/lib.rs,
src/private.rs, src/public.rs) together with proofs about the claims of
its specification.

Modelling conventions:
* `f64` order amounts are embedded as rationals: the order encoder never
  performs arithmetic on them, it only carries the values into the JSON tree,
  so any faithful injective embedding of the float values suffices.
* The external collaborators excluded by the spec (base64 codec, HMAC-SHA256
  primitive, JSON structural decoder, clock) are taken as explicit function
  parameters of the embedded operations, mirroring the call sites in the
  source.
* A Rust panic (the out-of-bounds `vec[0]` in `cancel_order`) is embedded as
  `Option.none` in the result: `some r` means the function returns `r`,
  `none` means the process panics.
-/

namespace Gdax

/-- Side enum from src/lib.rs lines 69-73. -/
inductive Side where
  | buy
  | sell
deriving DecidableEq, Repr

/-- ApiError struct from src/lib.rs lines 30-33: the raw error body, wrapped. -/
structure ApiError where
  message : String
deriving DecidableEq, Repr

/-- Model of an error produced by the external serde_json decoder
(`serde_json::Error`). Only its identity matters to the client code. -/
structure JsonError where
  msg : String
deriving DecidableEq, Repr

/-- Error enum from src/lib.rs lines 35-42. The payloads of the `Hyper` and
`Http` variants are external transport error types and carry no information
the client inspects, so they are embedded payload-free. -/
inductive Error where
  | api (e : ApiError)
  | hyper
  | http
  | invalidSecretKey
  | json (e : JsonError)
deriving DecidableEq, Repr

/-- Conversion From base64::DecodeError for Error, src/lib.rs lines 44-49:
every base64 decode failure becomes the single opaque InvalidSecretKey. -/
def errorFromBase64DecodeError : Error := Error.invalidSecretKey

/-- Model of the error built by `E::invalid_value(Unexpected::Str(..), ..)`
in the hand-rolled serde visitors. -/
inductive DeError where
  | invalidValue (unexpected : String)
deriving DecidableEq, Repr

/-- Embedding of Rust's `str::to_lowercase` as used on the fixed ASCII wire
vocabulary: lowercase every character. -/
def strToLower (s : String) : String := ⟨s.data.map Char.toLower⟩

/-- Embedding of Rust's `str::to_uppercase` as used on the HTTP method names:
uppercase every character. -/
def strToUpper (s : String) : String := ⟨s.data.map Char.toUpper⟩

/-- Serialize for Side, src/lib.rs lines 87-96: the wire string passed to
`serializer.serialize_str`. -/
def serializeSide : Side → String
  | .buy => "buy"
  | .sell => "sell"

/-- Deserialize for Side, src/lib.rs lines 101-127: lowercase the input and
match it against the fixed vocabulary, rejecting anything else with an
invalid-value error. -/
def deserializeSide (v : String) : Except DeError Side :=
  let lv := strToLower v
  if lv = "buy" then Except.ok Side.buy
  else if lv = "sell" then Except.ok Side.sell
  else Except.error (DeError.invalidValue "Invalid side")

/-- Flat JSON scalar values as produced by the order encoder. -/
inductive JVal where
  | str (s : String)
  | num (q : ℚ)
deriving DecidableEq, Repr

/-- A flat JSON object: serde derive emits the fields of the helper structs
in declaration order. -/
abbrev JObj := List (String × JVal)

/-- Keys of a flat JSON object. -/
def keys (o : JObj) : List String := o.map Prod.fst

/-- Whether a flat JSON object carries a field with the given key. -/
def hasKey (o : JObj) (k : String) : Bool := o.any (fun p => p.1 == k)

/-- SizeOrFunds enum from src/private.rs lines 156-160. -/
inductive SizeOrFunds where
  | size (amount : ℚ)
  | funds (amount : ℚ)
deriving DecidableEq, Repr

/-- Whether a SizeOrFunds value is the Size alternative. -/
def SizeOrFunds.isSize : SizeOrFunds → Bool
  | .size _ => true
  | .funds _ => false

/-- NewOrder enum from src/private.rs lines 162-181. Field order follows the
source declaration. -/
inductive NewOrder where
  | limit (side : Side) (product_id : String) (price : ℚ) (size : ℚ)
  | market (side : Side) (product_id : String) (size_or_funds : SizeOrFunds)
  | stop (side : Side) (product_id : String) (price : ℚ) (size_or_funds : SizeOrFunds)
deriving DecidableEq, Repr

/-- Serialize for NewOrder, src/private.rs lines 213-312. Each arm builds a
helper struct (LimitOrder / MarketOrder / StopOrder) whose serde-derived
encoding is a flat object with the fields in declaration order. Note: in the
source the `#[serde(rename = "type")]` attribute on the discriminant field is
commented out, so the emitted key is the literal field name `t`. -/
def serializeNewOrder : NewOrder → JObj
  | .limit side pid price size =>
      [("t", JVal.str "limit"), ("side", JVal.str (serializeSide side)),
       ("product_id", JVal.str pid), ("price", JVal.num price), ("size", JVal.num size)]
  | .market side pid (.size size) =>
      [("t", JVal.str "market"), ("side", JVal.str (serializeSide side)),
       ("product_id", JVal.str pid), ("size", JVal.num size)]
  | .market side pid (.funds funds) =>
      [("t", JVal.str "market"), ("side", JVal.str (serializeSide side)),
       ("product_id", JVal.str pid), ("funds", JVal.num funds)]
  | .stop side pid price (.size size) =>
      [("t", JVal.str "stop"), ("side", JVal.str (serializeSide side)),
       ("product_id", JVal.str pid), ("price", JVal.num price), ("size", JVal.num size)]
  | .stop side pid price (.funds funds) =>
      [("t", JVal.str "stop"), ("side", JVal.str (serializeSide side)),
       ("product_id", JVal.str pid), ("price", JVal.num price), ("funds", JVal.num funds)]

/-- Client::signature, src/private.rs lines 357-371. The base64 codec and the
HMAC-SHA256 primitive are external collaborators passed in as functions; the
byte/string handling of the message is kept at string level, matching the
`format!` concatenation in the source. A decode failure of the secret maps
to InvalidSecretKey through the From conversion of src/lib.rs lines 44-49. -/
def signature (b64decode : String → Option (List ℕ)) (b64encode : List ℕ → String)
    (hmacSha256 : List ℕ → String → List ℕ)
    (secret path body timestamp method : String) : Except Error String :=
  match b64decode secret with
  | none => Except.error errorFromBase64DecodeError
  | some key =>
      let what := timestamp ++ strToUpper method ++ path ++ body
      Except.ok (b64encode (hmacSha256 key what))

/-- Client::get_headers, src/private.rs lines 373-386. The clock collaborator
supplies `nowSec` (the `get_time().sec` value); the header list keeps the
source's insertion order and literal names. -/
def get_headers (b64decode : String → Option (List ℕ)) (b64encode : List ℕ → String)
    (hmacSha256 : List ℕ → String → List ℕ)
    (key secret passphrase : String) (nowSec : Int)
    (path body method : String) : Except Error (List (String × String)) :=
  let timestamp := toString nowSec
  match signature b64decode b64encode hmacSha256 secret path body timestamp method with
  | Except.error e => Except.error e
  | Except.ok sig =>
      Except.ok [("Accept", "application/json"),
                 ("User-Agent", "rust-gdax-client/1.1.0"),
                 ("CB-ACCESS-KEY", key),
                 ("CB-ACCESS-SIGN", sig),
                 ("CB-ACCESS-PASSPHRASE", passphrase),
                 ("CB-ACCESS-TIMESTAMP", timestamp)]

/-- hyper's `StatusCode::is_success`: the 2xx class. -/
def is_success (status : ℕ) : Bool := 200 ≤ status && status < 300

/-- Decoding tail of the private Client::get_and_decode, src/private.rs lines
388-416 (the identical logic also ends post_and_decode and delete_and_decode):
given the transport's status and buffered body, a non-success status wraps the
raw body as ApiError; a success status hands the body to the external
serde_json structural decoder for `T`, whose failure becomes `Error::Json`
through the From conversion of src/lib.rs lines 57-61. -/
def private_get_and_decode {T : Type} (decodeT : String → Except JsonError T)
    (status : ℕ) (content : String) : Except Error T :=
  if !(is_success status) then Except.error (Error.api ⟨content⟩)
  else
    match decodeT content with
    | Except.ok v => Except.ok v
    | Except.error e => Except.error (Error.json e)

/-- Decoding tail of Client::delete_and_decode, src/private.rs lines 449-477;
the body is a verbatim copy of the logic of private_get_and_decode. -/
def delete_and_decode {T : Type} (decodeT : String → Except JsonError T)
    (status : ℕ) (content : String) : Except Error T :=
  if !(is_success status) then Except.error (Error.api ⟨content⟩)
  else
    match decodeT content with
    | Except.ok v => Except.ok v
    | Except.error e => Except.error (Error.json e)

/-- Decoding tail of the public Client::get_and_decode, src/public.rs lines
137-159: the curl response code is compared against the literal 200, not the
2xx class. -/
def public_get_and_decode {T : Type} (decodeT : String → Except JsonError T)
    (status : ℕ) (content : String) : Except Error T :=
  if status ≠ 200 then Except.error (Error.api ⟨content⟩)
  else
    match decodeT content with
    | Except.ok v => Except.ok v
    | Except.error e => Except.error (Error.json e)

/-- OrderId is a Uuid (128-bit identifier); its identity is all the client
uses, so it is embedded as a natural number. -/
abbrev OrderId := ℕ

/-- Client::cancel_order, src/private.rs lines 503-505:
`Ok(self.delete_and_decode::<Vec<OrderId>>(..)?[0])`. The `?` propagates any
decode error; the `[0]` indexing panics when the decoded vector is empty,
which the embedding records as `none`. -/
def cancel_order (decodeIds : String → Except JsonError (List OrderId))
    (status : ℕ) (content : String) : Option (Except Error OrderId) :=
  match delete_and_decode decodeIds status content with
  | Except.error e => some (Except.error e)
  | Except.ok ids =>
      match ids.get? 0 with
      | some i => some (Except.ok i)
      | none => none

/-- Query-string construction of Client::get_orders_with_status,
src/private.rs lines 515-528: zip the three flags with the three
`status=` terms, keep the terms whose flag is set, join with `&`. -/
def orders_status_query (o p a : Bool) : String :=
  String.intercalate "&"
    ((([o, p, a].zip ["status=open", "status=pending", "status=active"]).filter
        (fun x => x.1)).map (fun x => x.2))

/-- The path Client::get_orders_with_status passes to get_and_decode:
`format!("/orders?{}", status)`. -/
def get_orders_with_status_path (o p a : Bool) : String :=
  "/orders?" ++ orders_status_query o p a

/-! Concrete collaborator instances used by the closed evaluation theorems. -/

/-- Concrete base64 decoder standing in for the external codec. -/
def demoB64Decode : String → Option (List ℕ) := fun s => some (s.data.map Char.toNat)

/-- Concrete base64 encoder standing in for the external codec. -/
def demoB64Encode : List ℕ → String := fun l => String.intercalate "," (l.map toString)

/-- Concrete MAC standing in for the external HMAC-SHA256 primitive. -/
def demoHmacSha256 : List ℕ → String → List ℕ := fun k m => k ++ m.data.map Char.toNat

/-- Base64 decoder standing in for the codec rejecting a malformed secret. -/
def rejectB64Decode : String → Option (List ℕ) := fun _ => none

/-- Structural decoder standing in for serde_json on a body that decodes to
the empty array of order ids. -/
def emptyIdsDecode : String → Except JsonError (List OrderId) := fun _ => Except.ok []

/-- Structural decoder standing in for serde_json that accepts only the
literal body "7". -/
def demoNatDecode : String → Except JsonError ℕ :=
  fun s => if s = "7" then Except.ok 7 else Except.error ⟨"structural mismatch"⟩

/-- Structural decoder standing in for serde_json that returns the body
itself. -/
def idStringDecode : String → Except JsonError String := fun s => Except.ok s

/-! Theorems about the claims. -/

/-- C1: for every timestamp string, method, path and body, when the secret
base64-decodes to `key`, Client::signature returns the base64 encoding of the
HMAC-SHA256 MAC keyed by `key` over the separator-free concatenation of the
decimal timestamp string, the uppercased method name, the path and the raw
body. -/
theorem signature_message_and_mac
    (b64decode : String → Option (List ℕ)) (b64encode : List ℕ → String)
    (hmacSha256 : List ℕ → String → List ℕ)
    (secret path body timestamp method : String) (key : List ℕ)
    (h : b64decode secret = some key) :
    signature b64decode b64encode hmacSha256 secret path body timestamp method =
      Except.ok (b64encode (hmacSha256 key
        (timestamp ++ strToUpper method ++ path ++ body))) := by
  simp [signature, h]

/-- Witness for C1 at a concrete secret, path, timestamp and lowercase method
name, with concrete collaborator functions. -/
theorem signature_message_and_mac_witness :
    signature demoB64Decode demoB64Encode demoHmacSha256 "c2Vj" "/orders" "" "1500000000" "get" =
      Except.ok (demoB64Encode (demoHmacSha256 ("c2Vj".data.map Char.toNat)
        ("1500000000" ++ strToUpper "get" ++ "/orders" ++ ""))) :=
  signature_message_and_mac demoB64Decode demoB64Encode demoHmacSha256
    "c2Vj" "/orders" "" "1500000000" "get" ("c2Vj".data.map Char.toNat) rfl

/-- C2: evaluation of the order encoder at the claim's input. Because the
serde rename of the discriminant field to "type" is commented out in the
source (src/private.rs line 223), the emitted discriminant key is the literal
field name "t", not "type": the Limit order of the claim serializes to an
object whose keys are t, side, product_id, price, size — no "type" key and no
"funds" key. -/
theorem newOrder_limit_wire_object :
    serializeNewOrder (NewOrder.limit Side.buy "BTC-USD" 100 1) =
      [("t", JVal.str "limit"), ("side", JVal.str "buy"),
       ("product_id", JVal.str "BTC-USD"), ("price", JVal.num 100),
       ("size", JVal.num 1)] ∧
    hasKey (serializeNewOrder (NewOrder.limit Side.buy "BTC-USD" 100 1)) "type" = false ∧
    hasKey (serializeNewOrder (NewOrder.limit Side.buy "BTC-USD" 100 1)) "funds" = false :=
  ⟨rfl, rfl, rfl⟩

/-- C3 counterexample: with a success status and a body that decodes to the
empty array of order ids, cancel_order neither returns a value nor an error:
it hits the out-of-bounds `[0]` indexing panic, embedded as `none` — refuting
the claim that a defined error value is returned to the caller. -/
theorem cancel_order_empty_array_panics :
    cancel_order emptyIdsDecode 200 "[]" = none := rfl

/-- C3 amended: on a success status whose body decodes to an empty array,
cancel_order fails deterministically at the out-of-bounds indexing of the
empty result (a defined failure point, embedded as `none`) instead of
returning an error value. -/
theorem cancel_order_empty_array_defined_failure
    (decodeIds : String → Except JsonError (List OrderId)) (status : ℕ) (content : String)
    (hs : is_success status = true) (hd : decodeIds content = Except.ok []) :
    cancel_order decodeIds status content = none := by
  simp [cancel_order, delete_and_decode, hs, hd]

/-- Witness for the amended C3 at status 204 and an empty body. -/
theorem cancel_order_empty_array_defined_failure_witness :
    cancel_order emptyIdsDecode 204 "" = none :=
  cancel_order_empty_array_defined_failure emptyIdsDecode 204 "" rfl rfl

/-- C4: classification in the private get_and_decode tail — a status outside
the 2xx class wraps the raw body verbatim as the Api error kind; on a 2xx
status the body goes to the structural decoder, whose success is returned
as-is and whose failure becomes the Json error kind, which is distinct from
the Api kind for every body. -/
theorem get_and_decode_error_classification {T : Type}
    (decodeT : String → Except JsonError T) (status : ℕ) (content : String) :
    (is_success status = false →
      private_get_and_decode decodeT status content =
        Except.error (Error.api ⟨content⟩)) ∧
    (is_success status = true → ∀ v, decodeT content = Except.ok v →
      private_get_and_decode decodeT status content = Except.ok v) ∧
    (is_success status = true → ∀ e, decodeT content = Except.error e →
      private_get_and_decode decodeT status content = Except.error (Error.json e) ∧
      ∀ m, Error.json e ≠ Error.api m) := by
  refine ⟨fun hs => ?_, fun hs v hv => ?_, fun hs e he => ⟨?_, fun m => ?_⟩⟩ <;>
    simp [private_get_and_decode, *]

/-- Witness for C4: a 404 with an error body comes back as the Api kind with
the body verbatim; a 200 with a matching body decodes; a 200 with a
mismatching body comes back as the Json kind. -/
theorem get_and_decode_error_classification_witness :
    private_get_and_decode demoNatDecode 404 "Invalid API Key" =
      Except.error (Error.api ⟨"Invalid API Key"⟩) ∧
    private_get_and_decode demoNatDecode 200 "7" = Except.ok 7 ∧
    private_get_and_decode demoNatDecode 200 "oops" =
      Except.error (Error.json ⟨"structural mismatch"⟩) :=
  ⟨(get_and_decode_error_classification demoNatDecode 404 "Invalid API Key").1 rfl,
   (get_and_decode_error_classification demoNatDecode 200 "7").2.1 rfl 7 rfl,
   ((get_and_decode_error_classification demoNatDecode 200 "oops").2.2 rfl
      ⟨"structural mismatch"⟩ rfl).1⟩

/-- C5: for every Market and Stop order over every SizeOrFunds alternative,
the serialized object carries the "size" key exactly when the alternative is
Size and the "funds" key exactly when it is Funds; the inactive key is absent
from the object entirely. -/
theorem market_stop_exactly_one_of_size_funds
    (side : Side) (pid : String) (price : ℚ) (sf : SizeOrFunds) :
    (hasKey (serializeNewOrder (NewOrder.market side pid sf)) "size" = sf.isSize ∧
     hasKey (serializeNewOrder (NewOrder.market side pid sf)) "funds" = !sf.isSize) ∧
    (hasKey (serializeNewOrder (NewOrder.stop side pid price sf)) "size" = sf.isSize ∧
     hasKey (serializeNewOrder (NewOrder.stop side pid price sf)) "funds" = !sf.isSize) := by
  cases sf <;> exact ⟨⟨rfl, rfl⟩, rfl, rfl⟩

/-- C6: Side serializes to the lowercase wire strings "buy"/"sell"; Side
deserialization accepts any string whose lowercasing is "buy" or "sell" and
rejects every other string with the typed invalid-value decode error. -/
theorem side_wire_codec (s : String) :
    serializeSide Side.buy = "buy" ∧ serializeSide Side.sell = "sell" ∧
    (strToLower s = "buy" → deserializeSide s = Except.ok Side.buy) ∧
    (strToLower s = "sell" → deserializeSide s = Except.ok Side.sell) ∧
    (strToLower s ≠ "buy" → strToLower s ≠ "sell" →
      deserializeSide s = Except.error (DeError.invalidValue "Invalid side")) := by
  refine ⟨rfl, rfl, fun h => ?_, fun h => ?_, fun h1 h2 => ?_⟩ <;>
    simp [deserializeSide, *]

/-- Witness for C6 at the concrete inputs "buy", "BUY", "Buy" and "long". -/
theorem side_wire_codec_witness :
    deserializeSide "buy" = Except.ok Side.buy ∧
    deserializeSide "BUY" = Except.ok Side.buy ∧
    deserializeSide "Buy" = Except.ok Side.buy ∧
    deserializeSide "long" = Except.error (DeError.invalidValue "Invalid side") :=
  ⟨(side_wire_codec "buy").2.2.1 rfl,
   (side_wire_codec "BUY").2.2.1 rfl,
   (side_wire_codec "Buy").2.2.1 rfl,
   (side_wire_codec "long").2.2.2.2 (by decide) (by decide)⟩

/-- C7: when the base64 codec rejects the secret, signature returns the
single opaque InvalidSecretKey error (via the dedicated From conversion, not a
generic decode error) and get_headers propagates exactly that error
unchanged. -/
theorem invalid_secret_key_propagated
    (b64decode : String → Option (List ℕ)) (b64encode : List ℕ → String)
    (hmacSha256 : List ℕ → String → List ℕ)
    (key secret passphrase : String) (nowSec : Int) (path body method : String)
    (h : b64decode secret = none) :
    signature b64decode b64encode hmacSha256 secret path body (toString nowSec) method =
      Except.error Error.invalidSecretKey ∧
    get_headers b64decode b64encode hmacSha256 key secret passphrase nowSec path body method =
      Except.error Error.invalidSecretKey := by
  constructor <;> simp [get_headers, signature, errorFromBase64DecodeError, h]

/-- Witness for C7 with a rejecting codec at concrete credentials. -/
theorem invalid_secret_key_propagated_witness :
    signature rejectB64Decode demoB64Encode demoHmacSha256 "!notbase64" "/accounts" ""
      (toString (1500000000 : Int)) "GET" = Except.error Error.invalidSecretKey ∧
    get_headers rejectB64Decode demoB64Encode demoHmacSha256 "k" "!notbase64" "p"
      1500000000 "/accounts" "" "GET" = Except.error Error.invalidSecretKey :=
  invalid_secret_key_propagated rejectB64Decode demoB64Encode demoHmacSha256
    "k" "!notbase64" "p" 1500000000 "/accounts" "" "GET" rfl

/-- C8: the order-listing query string joins, with "&" and in the fixed order
open, pending, active, exactly the `status=` terms whose flag is set; the
triple (false, true, true) yields "status=pending&status=active"; with all
three flags false the query string is empty and the issued request path is
still the well-formed "/orders?" (a pass-through, not an error). -/
theorem orders_status_query_spec (o p a : Bool) :
    orders_status_query o p a =
      String.intercalate "&"
        ((if o then ["status=open"] else []) ++
         (if p then ["status=pending"] else []) ++
         (if a then ["status=active"] else [])) ∧
    orders_status_query false true true = "status=pending&status=active" ∧
    orders_status_query false false false = "" ∧
    get_orders_with_status_path false false false = "/orders?" := by
  cases o <;> cases p <;> cases a <;> exact ⟨rfl, rfl, rfl, rfl⟩

/-- C9 counterexample: at status 201 — inside the 2xx class hyper's
is_success accepts, but not the literal 200 the public client compares
against — the private pipeline decodes the body while the public pipeline
wraps it as an Api error: the two pipelines classify the same (status, body)
pair differently, refuting the claimed behavioral equality. -/
theorem public_private_differ_at_201 :
    public_get_and_decode idStringDecode 201 "created" =
      Except.error (Error.api ⟨"created"⟩) ∧
    private_get_and_decode idStringDecode 201 "created" = Except.ok "created" :=
  ⟨rfl, rfl⟩

/-- C9 amended: the two pipelines differ beyond the transport collaborator
only on 2xx statuses other than 200 (where the public client reports an Api
error while the private client decodes): for status 200 and for every status
outside the 2xx class they classify identically and produce the same decoded
result or error. -/
theorem public_private_agree_outside_2xx_or_200 {T : Type}
    (decodeT : String → Except JsonError T) (status : ℕ) (content : String)
    (h : status = 200 ∨ is_success status = false) :
    public_get_and_decode decodeT status content =
      private_get_and_decode decodeT status content := by
  rcases h with h | h
  · subst h
    rfl
  · have h200 : status ≠ 200 := by
      intro e
      rw [e] at h
      exact absurd h (by decide)
    simp [public_get_and_decode, private_get_and_decode, h, h200]

/-- Witness for the amended C9 at the non-success status 404. -/
theorem public_private_agree_outside_2xx_or_200_witness :
    public_get_and_decode idStringDecode 404 "not found" =
      private_get_and_decode idStringDecode 404 "not found" :=
  public_private_agree_outside_2xx_or_200 idStringDecode 404 "not found" (Or.inr rfl)

/-- C10: round-trip of the Side enum through its wire encoding is the
identity: deserializing the serialization of any Side value yields that
value. -/
theorem side_roundtrip (s : Side) :
    deserializeSide (serializeSide s) = Except.ok s := by
  cases s <;> rfl

end Gdax
